import Mathlib

/-!
Verification development for the `bevy_construct_prototype` crate: a shallow
embedding of its construction protocol (`Construct`, `ConstructProp`,
`ReflectConstruct`, `ConstructTuple`) and of the shape of the code emitted by
its derive macro (`derive_construct` / `struct_impl` in the macros crate),
together with theorems settling the specification's claims.

The mutable world handle (`&mut EntityWorldMut`) is modelled by explicit state
passing: a construction function has type `σ → Props → Except ConstructError
(Self × σ)`, where `σ` is the abstract world state threaded through nested
constructions. A Rust panic (`unwrap` on a failed downcast, `todo!`) is
modelled by an `Option` layer whose `none` case is the fault.
-/

namespace BevyConstruct

/-- Model of `EntityFetchError` from `bevy_ecs` (an external collaborator):
the crate only stores and forwards it, so an opaque payload suffices. -/
structure EntityFetchError where
  payload : Nat
deriving DecidableEq

/-- Model of `ConstructError` (src/src/lib.rs lines 16-26): four variants,
`Custom(&str)`, `MissingEntity(EntityFetchError)`, `MissingResource`
carrying the resource's type name, and `InvalidProps` carrying a message. -/
inductive ConstructError where
  | custom (msg : String)
  | missingEntity (err : EntityFetchError)
  | missingResource (typeName : String)
  | invalidProps (message : String)
deriving DecidableEq

/-- Model of the `Construct` trait (src/src/lib.rs lines 28-31): an associated
`Props` type with a default value (the `Default` bound), and
`construct(entity, props) -> Result<Self, ConstructError>`. The mutable
entity handle is modelled by threading a state `σ`. -/
structure ConstructImpl (σ : Type) (Self : Type) : Type 1 where
  Props : Type
  defaultProps : Props
  construct : σ → Props → Except ConstructError (Self × σ)

/-- Model of the blanket impl `impl<T: Clone + Default> Construct for T`
(src/src/lib.rs lines 33-40): `Props = T` and `construct` ignores the entity
handle and returns `Ok(props)`. The `Default` bound is the value `d`. -/
def blanketImpl (σ : Type) {α : Type} (d : α) : ConstructImpl σ α where
  Props := α
  defaultProps := d
  construct := fun s props => .ok (props, s)

/-- Model of `ConstructProp<C>` (src/src/lib.rs lines 42-46): a two-variant
sum holding either nested props for `C` or an already-resolved value of `C`.
`P` stands for `C::Props`. -/
inductive ConstructProp (P C : Type) where
  | props (p : P)
  | value (v : C)
deriving DecidableEq

/-- Model of the field-resolution match emitted by the derive macro
(src/macros/src/lib.rs lines 189-202 and 231-250):
`match f { ConstructProp::Props(p) => Construct::construct(_context, p)?,
ConstructProp::Value(v) => v }`. `construct` is the nested type's
construction function and `ctx` the threaded world state. -/
def resolveConstructProp {σ P C : Type}
    (construct : σ → P → Except ConstructError (C × σ)) (ctx : σ) :
    ConstructProp P C → Except ConstructError (C × σ)
  | .props p => construct ctx p
  | .value v => .ok (v, ctx)

/-- Model of `ConstructTuple<T>` (src/src/lib.rs line 89): a transparent
wrapper around an inner tuple value. -/
structure ConstructTuple (α : Type) where
  inner : α
deriving DecidableEq

/-- Model of the `construct_impl!` macro expansion (src/src/lib.rs lines
91-107), instantiated by `all_tuples!` for arities 0 through 12: the props
tuple is destructured and each element's `construct` runs left-to-right
against the same threaded context, the `?` operator returning the first
error; on full success the results are rewrapped in `ConstructTuple`. The
heterogeneous tuple of element constructors is modelled as a list of
constructors over a common carrier `α`; arity n is a list of length n. -/
def construct_impl {σ α : Type}
    (elems : List (σ → Except ConstructError (α × σ))) (s : σ) :
    Except ConstructError (ConstructTuple (List α) × σ) :=
  match elems with
  | [] => .ok (⟨[]⟩, s)
  | c :: rest =>
    match c s with
    | .error e => .error e
    | .ok (a, s') =>
      match construct_impl rest s' with
      | .error e => .error e
      | .ok (t, s'') => .ok (⟨a :: t.inner⟩, s'')

/-- Model of the `construct` function the derive macro emits for a struct
(src/macros/src/lib.rs lines 67-74 with the per-field code of lines
179-267): `Ok(Self { f1: ..?.., f2: ..?.., ... })`, each field resolved in
declaration order against the threaded context, the `?` operator returning
the first error before any later field is touched. Each field's resolution
(a pass-through or a `resolveConstructProp` match, possibly recursing into
nested construction) is modelled as a resolver function; the constructed
instance is the list of resolved field values. -/
def structConstruct {σ α : Type}
    (resolvers : List (σ → Except ConstructError (α × σ))) (s : σ) :
    Except ConstructError (List α × σ) :=
  match resolvers with
  | [] => .ok ([], s)
  | r :: rest =>
    match r s with
    | .error e => .error e
    | .ok (v, s') =>
      match structConstruct rest s' with
      | .error e => .error e
      | .ok (vs, s'') => .ok (v :: vs, s'')

/-- Model of the host's `Bundle` + `DynamicBundle` capability for a carrier
type `α` (an external collaborator; only its call shape matters here).
`σ` models the mutable `(&mut Components, &mut Storages)` pair,
`component_ids` additionally returns the `ComponentId`s emitted through the
`ids` callback, `τ` is the `from_components` context, `ρ` models the
mutable `(Components, Storages, RequiredComponents)` triple of
`register_required_components`, and `δ` the state accumulated by the
`get_components` / `get_component_ids` callbacks. `get_component_ids`
returns `none` on a panic (for hosts, it is total and returns `some`). -/
structure BundleModel (σ τ ρ δ : Type) (α : Type) where
  component_ids : σ → σ × List Nat
  from_components : τ → α × τ
  register_required_components : ρ → ρ
  get_component_ids : σ → Option (List (Option Nat))
  get_components : α → δ → δ

/-- Model of `unsafe impl<B: Bundle> Bundle for ConstructTuple<B>` together
with `impl<B: Bundle> DynamicBundle for ConstructTuple<B>` (src/src/lib.rs
lines 109-148): `component_ids`, `register_required_components` and
`get_components` forward to `B`, `from_components` wraps `B`'s result in
`ConstructTuple`, and `get_component_ids` is
`todo!("Not yet implemented for ConstructTuple")` — an unconditional
panic, modelled as `none`. -/
def ConstructTuple.bundle {σ τ ρ δ α : Type} (b : BundleModel σ τ ρ δ α) :
    BundleModel σ τ ρ δ (ConstructTuple α) where
  component_ids := b.component_ids
  from_components := fun ctx =>
    let (a, ctx') := b.from_components ctx
    (⟨a⟩, ctx')
  register_required_components := b.register_required_components
  get_component_ids := fun _ => none
  get_components := fun self d => b.get_components self.inner d

/-- Concrete bundle model over trivial state types whose operations all
succeed; stands for the hand-built tuple `B` in the counterexample. -/
def unitBundle : BundleModel Unit Unit Unit Unit Unit where
  component_ids := fun s => (s, [])
  from_components := fun ctx => ((), ctx)
  register_required_components := fun r => r
  get_component_ids := fun _ => some []
  get_components := fun _ d => d

/-- Model of `syn::Visibility` on a field: `pub`, a restricted qualifier
such as `pub(crate)` or `pub(in path)` with the path recorded as text, or
the inherited (no-qualifier, module-private) visibility. -/
inductive Visibility where
  | publicVis
  | restricted (path : String)
  | inherited
deriving DecidableEq

/-- Model of a `syn::Field` as the derive macro reads it: optional name,
type rendered as text, visibility, and whether a `#[prop]` attribute is
present (`is_prop` in src/macros/src/lib.rs lines 172-176). -/
structure SynField where
  ident : Option String
  ty : String
  vis : Visibility
  isProp : Bool
deriving DecidableEq

/-- Model of `syn::Fields`: named fields, unnamed (tuple-style) fields, or a
unit field list. -/
inductive SynFields where
  | named (fields : List SynField)
  | unnamed (fields : List SynField)
  | unit
deriving DecidableEq

/-- The field list iterated by `fields.iter()`. -/
def SynFields.list : SynFields → List SynField
  | .named fs => fs
  | .unnamed fs => fs
  | .unit => []

/-- Type of a generated props field: `ConstructProp<ty>` for a `#[prop]`
field, otherwise the source field's type unchanged. -/
inductive PropsFieldTy where
  | constructProp (ty : String)
  | plain (ty : String)
deriving DecidableEq

/-- A field of the generated props type: its name (for named fields), the
emitted visibility qualifier, and its type. -/
structure PropsField where
  ident : Option String
  vis : Visibility
  ty : PropsFieldTy
deriving DecidableEq

/-- Default expression emitted for a props field:
`ConstructProp::Props(Default::default())` for a `#[prop]` field, plain
`Default::default()` otherwise. -/
inductive PropsFieldDefault where
  | constructPropProps
  | defaultDefault
deriving DecidableEq

/-- Shape of the generated per-field construction code: a match resolving a
`ConstructProp` (with `?` on the nested `construct`), or a plain
pass-through of the props field. -/
inductive FromPropsField where
  | resolveProp
  | passThrough
deriving DecidableEq

/-- Model of the `StructImpl` record returned by `struct_impl`
(src/macros/src/lib.rs lines 154-159). -/
structure StructImpl where
  is_named : Bool
  from_props_fields : List FromPropsField
  props_fields : List PropsField
  props_fields_defaults : List PropsFieldDefault
deriving DecidableEq

/-- Model of `struct_impl` (src/macros/src/lib.rs lines 163-276): walks the
fields in declaration order; per field, `is_pub` tests whether the
visibility is exactly `Visibility::Public` and `maybe_pub` emits `pub` or
nothing accordingly; a `#[prop]` field becomes a `ConstructProp`-typed
props field defaulted to `ConstructProp::Props(Default::default())` and is
resolved by a match, a plain field is copied with a `Default::default()`
default and passed through. The `is_enum` flag only changes how the emitted
resolution code names the field (destructured binder versus `props.field`),
not its shape, so it is unused in this shape-level model. -/
def struct_impl (fields : SynFields) (is_enum : Bool) : StructImpl :=
  let is_named := match fields with | .named _ => true | _ => false
  { is_named := is_named
    from_props_fields := fields.list.map (fun f =>
      if f.isProp then FromPropsField.resolveProp else FromPropsField.passThrough)
    props_fields := fields.list.map (fun f =>
      let is_pub := match f.vis with | .publicVis => true | _ => false
      let maybe_pub := if is_pub then Visibility.publicVis else Visibility.inherited
      { ident := if is_named then f.ident else none
        vis := maybe_pub
        ty := if f.isProp then PropsFieldTy.constructProp f.ty
              else PropsFieldTy.plain f.ty })
    props_fields_defaults := fields.list.map (fun f =>
      if f.isProp then PropsFieldDefault.constructPropProps
      else PropsFieldDefault.defaultDefault) }

/-- Model of `syn::Data`: a struct, an enum given as its list of variants
(name and fields, in declaration order), or a union. -/
inductive SynData where
  | dataStruct (fields : SynFields)
  | dataEnum (variants : List (String × SynFields))
  | dataUnion
deriving DecidableEq

/-- A variant of a generated enum props type: the variant name and its
generated props fields (empty for a fieldless variant). -/
structure PropsVariant where
  name : String
  fields : List PropsField
deriving DecidableEq

/-- The generated companion props type declaration. -/
inductive PropsTypeDecl where
  | structDecl (is_named : Bool) (fields : List PropsField)
  | enumDecl (variants : List PropsVariant)
deriving DecidableEq

/-- The set of declarations `derive_construct` emits, at the shape level:
the props type declaration, whether an `impl Default` for the props type is
emitted (and with which per-field default expressions as its body), and the
per-variant field-resolution shapes of the emitted `Construct::construct`
(a single entry for a struct). -/
structure DerivedOutput where
  props_decl : PropsTypeDecl
  has_default_impl : Bool
  default_body : List PropsFieldDefault
  from_props : List (List FromPropsField)
deriving DecidableEq

/-- Model of `derive_construct` (src/macros/src/lib.rs lines 12-152). For a
struct (lines 25-77) it emits the props struct, an `impl Default` whose
body is `props_fields_defaults`, and the `Construct` impl. For an enum
(lines 78-147) it emits a props enum with one variant per source variant
(each variant's fields from `struct_impl`) and the `Construct` impl whose
match has one arm per variant — but no `impl Default` is emitted: the
`first_variant_default_ident` computed at lines 83-97 is never used. For a
union (line 148) it is `todo!("Union types are not supported yet.")`, a
panic, modelled as `none`. -/
def derive_construct (data : SynData) : Option DerivedOutput :=
  match data with
  | .dataStruct fields =>
    let si := struct_impl fields false
    some { props_decl := PropsTypeDecl.structDecl si.is_named si.props_fields
           has_default_impl := true
           default_body := si.props_fields_defaults
           from_props := [si.from_props_fields] }
  | .dataEnum variants =>
    some { props_decl := PropsTypeDecl.enumDecl (variants.map (fun v =>
             { name := v.1, fields := (struct_impl v.2 true).props_fields }))
           has_default_impl := false
           default_body := []
           from_props := variants.map (fun v =>
             (struct_impl v.2 true).from_props_fields) }
  | .dataUnion => none

/-- Model of a `Box<dyn Reflect>` value: a runtime type tag drawn from a tag
universe `Tag`, together with a value of the type that tag denotes (`Val`
interprets tags as types). -/
structure BoxedReflect (Tag : Type) (Val : Tag → Type) where
  tag : Tag
  val : Val tag

/-- Model of `Box<dyn Reflect>::downcast::<T>()`: succeeds exactly when the
boxed value's runtime tag matches the requested tag. -/
def downcastBox {Tag : Type} [DecidableEq Tag] {Val : Tag → Type}
    (t : Tag) (b : BoxedReflect Tag Val) : Option (Val t) :=
  if h : b.tag = t then some (h ▸ b.val) else none

/-- Model of `ReflectConstruct` (src/src/lib.rs lines 60-67): a per-type
record of two function pointers over type-erased values: produce a boxed
default props value, and construct a boxed instance from boxed props and a
world context. The outer `Option` on `construct`'s result models a panic
(`none`); a normal return is `some` of `Result<Box<dyn Reflect>, ConstructError>`. -/
structure ReflectConstruct (Tag : Type) (Val : Tag → Type) (σ : Type) where
  default_props : BoxedReflect Tag Val
  construct : BoxedReflect Tag Val → σ →
    Option (Except ConstructError (BoxedReflect Tag Val × σ))

/-- Model of `impl<S: Construct> FromType<S> for ReflectConstruct`
(src/src/lib.rs lines 69-83): `default_props` boxes
`<S::Props as Default>::default()` (here `dflt` at tag `propsTag`);
`construct` downcasts the erased props to `S::Props`, the `.unwrap()`
panicking (`none`) on a tag mismatch, then invokes `S::construct` (here the
`construct` argument) and re-boxes its result at `instTag`, the `?`
operator forwarding its error as a returned `Err`. -/
def from_type {Tag : Type} [DecidableEq Tag] {Val : Tag → Type} {σ : Type}
    (propsTag instTag : Tag) (dflt : Val propsTag)
    (construct : σ → Val propsTag → Except ConstructError (Val instTag × σ)) :
    ReflectConstruct Tag Val σ where
  default_props := ⟨propsTag, dflt⟩
  construct := fun props ctx =>
    match downcastBox propsTag props with
    | none => none
    | some p => some ((construct ctx p).map (fun r => (⟨instTag, r.1⟩, r.2)))

/-- Concrete resolver that always succeeds with `()` and leaves the world
state untouched; used by witnesses. -/
def okRes : Unit → Except ConstructError (Unit × Unit) := fun s => .ok ((), s)

/-- Concrete resolver that always fails with a custom error; used by
witnesses. -/
def errRes : Unit → Except ConstructError (Unit × Unit) :=
  fun _ => .error (.custom "boom")

/-- Concrete resolver failing with a different error, standing for a later
field that would also fail; used by witnesses. -/
def errLaterRes : Unit → Except ConstructError (Unit × Unit) :=
  fun _ => .error (.custom "later")

end BevyConstruct

namespace BevyConstruct

/-- Claim C5: for every type `T` that is cloneable and has a default value,
`T` satisfies the construction protocol with `Props = T` itself, and for
every context and every props value `p`, `construct(context, p)` returns
`Ok(p)` with the world state untouched. -/
theorem blanketImpl_construct_id (σ α : Type) (d : α) :
    (blanketImpl σ d).Props = α ∧
      ∀ (s : σ) (p : α), (blanketImpl σ d).construct s p = .ok (p, s) := by
  refine ⟨rfl, fun s p => rfl⟩

/-- Claim C9: for every built-in blanket-default-based constructible type,
constructing the default props value succeeds, and the resulting instance is
exactly the type's default value — the instance with every field at its own
natural default — with the world state untouched. -/
theorem blanketImpl_default_roundtrip (σ α : Type) (d : α) (s : σ) :
    ((blanketImpl σ d).construct s (blanketImpl σ d).defaultProps).isOk = true ∧
      (blanketImpl σ d).construct s (blanketImpl σ d).defaultProps = .ok (d, s) := by
  exact ⟨rfl, rfl⟩

/-- Claim C4: resolving a `ConstructProp` in the `Value` variant returns the
held value exactly, for any nested construction function (so the nested
construction is never invoked) and with the context untouched; resolving it
in the `Props` variant invokes the nested construction function on the
nested props with the same context, yielding its result. -/
theorem resolveConstructProp_spec (σ P C : Type)
    (construct : σ → P → Except ConstructError (C × σ)) (ctx : σ) :
    (∀ v : C, resolveConstructProp construct ctx (.value v) = .ok (v, ctx)) ∧
      (∀ p : P, resolveConstructProp construct ctx (.props p) = construct ctx p) := by
  exact ⟨fun v => rfl, fun p => rfl⟩

/-- Claim C6: in a generated construction function, if every field before
some field `r` resolves successfully and `r` fails, the whole construction
returns exactly `r`'s error — the first error in field declaration order —
propagated unchanged, and no constructed instance is produced (the result
is `error`, not `ok`), whatever the later fields would have done. Nested
(depth-first) failures are covered because a resolver is any function,
including a recursive nested construction. -/
theorem structConstruct_first_error (σ α : Type)
    (pre : List (σ → Except ConstructError (α × σ)))
    (r : σ → Except ConstructError (α × σ))
    (post : List (σ → Except ConstructError (α × σ)))
    (s : σ) (vs : List α) (s' : σ) (e : ConstructError)
    (hpre : structConstruct pre s = .ok (vs, s'))
    (hr : r s' = .error e) :
    structConstruct (pre ++ r :: post) s = .error e := by
  induction pre generalizing s vs with
  | nil =>
    simp only [structConstruct, Except.ok.injEq, Prod.mk.injEq] at hpre
    obtain ⟨-, hs⟩ := hpre
    subst hs
    simp [structConstruct, hr]
  | cons r0 rest ih =>
    cases h0 : r0 s with
    | error e0 => simp [structConstruct, h0] at hpre
    | ok p =>
      obtain ⟨a, s1⟩ := p
      cases h1 : structConstruct rest s1 with
      | error e1 => simp [structConstruct, h0, h1] at hpre
      | ok q =>
        obtain ⟨vs1, s2⟩ := q
        simp only [structConstruct, h0, h1, Except.ok.injEq, Prod.mk.injEq] at hpre
        obtain ⟨-, hs⟩ := hpre
        subst hs
        simp [structConstruct, h0, ih s1 vs1 h1]

/-- Witness for the first-error theorem: with a succeeding first field, a
failing second field and a differently-failing third field, the constructor
reports the second field's error. -/
theorem structConstruct_first_error_witness :
    structConstruct [okRes, errRes, errLaterRes] () = .error (.custom "boom") :=
  structConstruct_first_error Unit Unit [okRes] errRes [errLaterRes] () [()] ()
    (.custom "boom") rfl rfl

/-- Claim C7: the tuple combinator's `construct` runs each element's
`construct` left-to-right against the same threaded context; for arity 0 it
always returns `Ok` with no field resolution and the world state untouched,
and for any arity up to 12, once every element before some element `c` has
succeeded and `c` fails, the whole construction returns exactly `c`'s error
and the later elements are never run (the result does not depend on them). -/
theorem construct_impl_spec :
    (∀ (σ α : Type) (s : σ),
        construct_impl ([] : List (σ → Except ConstructError (α × σ))) s
          = .ok (⟨[]⟩, s)) ∧
      (∀ (σ α : Type) (pre : List (σ → Except ConstructError (α × σ)))
          (c : σ → Except ConstructError (α × σ))
          (post : List (σ → Except ConstructError (α × σ)))
          (s : σ) (t : ConstructTuple (List α)) (s' : σ) (e : ConstructError),
          (pre ++ c :: post).length ≤ 12 →
          construct_impl pre s = .ok (t, s') →
          c s' = .error e →
          construct_impl (pre ++ c :: post) s = .error e) := by
  constructor
  · intro σ α s; rfl
  · intro σ α pre c post s t s' e hlen hpre hc
    clear hlen
    induction pre generalizing s t with
    | nil =>
      simp only [construct_impl, Except.ok.injEq, Prod.mk.injEq] at hpre
      obtain ⟨-, hs⟩ := hpre
      subst hs
      simp [construct_impl, hc]
    | cons c0 rest ih =>
      cases h0 : c0 s with
      | error e0 => simp [construct_impl, h0] at hpre
      | ok p =>
        obtain ⟨a, s1⟩ := p
        cases h1 : construct_impl rest s1 with
        | error e1 => simp [construct_impl, h0, h1] at hpre
        | ok q =>
          obtain ⟨t1, s2⟩ := q
          simp only [construct_impl, h0, h1, Except.ok.injEq, Prod.mk.injEq] at hpre
          obtain ⟨-, hs⟩ := hpre
          subst hs
          simp [construct_impl, h0, ih s1 t1 h1]

/-- Witness for the tuple combinator theorem: a three-element tuple whose
second element fails reports that element's error. -/
theorem construct_impl_spec_witness :
    construct_impl [okRes, errRes, errLaterRes] () = .error (.custom "boom") :=
  construct_impl_spec.2 Unit Unit [okRes] errRes [errLaterRes] () ⟨[()]⟩ ()
    (.custom "boom") (by decide) rfl rfl

/-- Counterexample to claim C2 as stated: for the concrete inner bundle
`unitBundle`, whose `get_component_ids` returns `some []`, the wrapper's
`get_component_ids` does not return the same result — it panics (`none`,
the `todo!` branch), so not every operation of the grouping capability
behaves identically on the wrapper. -/
theorem constructTuple_get_component_ids_diverges :
    (ConstructTuple.bundle unitBundle).get_component_ids () = none ∧
      unitBundle.get_component_ids () = some [] ∧
      (ConstructTuple.bundle unitBundle).get_component_ids ()
        ≠ unitBundle.get_component_ids () := by
  refine ⟨rfl, rfl, by simp [ConstructTuple.bundle, unitBundle]⟩

/-- Claim C2 amended: for every inner bundle `B`, the wrapper
`ConstructTuple<B>` delegates component-id enumeration
(`component_ids`), required-component registration and component
extraction (`get_components`) identically to `B`, and construction from
components returns exactly `B`'s result wrapped in `ConstructTuple`; the
remaining operation, `get_component_ids`, is not delegated — it panics
unconditionally (`todo!`). -/
theorem constructTuple_bundle_delegates (σ τ ρ δ α : Type)
    (b : BundleModel σ τ ρ δ α) :
    (ConstructTuple.bundle b).component_ids = b.component_ids ∧
      (∀ ctx : τ, (ConstructTuple.bundle b).from_components ctx
        = (⟨(b.from_components ctx).1⟩, (b.from_components ctx).2)) ∧
      (ConstructTuple.bundle b).register_required_components
        = b.register_required_components ∧
      (∀ (a : α) (d : δ), (ConstructTuple.bundle b).get_components ⟨a⟩ d
        = b.get_components a d) ∧
      (∀ s : σ, (ConstructTuple.bundle b).get_component_ids s = none) := by
  refine ⟨rfl, fun ctx => ?_, rfl, fun a d => rfl, fun s => rfl⟩
  rcases hfc : b.from_components ctx with ⟨a, ctx'⟩
  simp [ConstructTuple.bundle, hfc]

/-- Claim C8: invoking the derived reflection descriptor's `construct` on a
boxed props value whose runtime tag differs from the props type's tag is an
unconditional fault (the modelled panic `none`), never a returned value —
in particular never a recoverable `ConstructError`. -/
theorem from_type_downcast_mismatch_panics (Tag : Type) [DecidableEq Tag]
    (Val : Tag → Type) (σ : Type) (propsTag instTag : Tag)
    (dflt : Val propsTag)
    (construct : σ → Val propsTag → Except ConstructError (Val instTag × σ))
    (b : BoxedReflect Tag Val) (ctx : σ) (h : b.tag ≠ propsTag) :
    (from_type propsTag instTag dflt construct).construct b ctx = none ∧
      ∀ r : Except ConstructError (BoxedReflect Tag Val × σ),
        (from_type propsTag instTag dflt construct).construct b ctx ≠ some r := by
  have hd : downcastBox propsTag b = (none : Option (Val propsTag)) := by
    simp [downcastBox, h]
  constructor
  · simp [from_type, hd]
  · intro r
    simp [from_type, hd]

/-- Witness for the downcast-mismatch theorem: with tags drawn from `Bool`,
a props tag `true` and a boxed value tagged `false`, the descriptor's
`construct` faults. -/
theorem from_type_downcast_mismatch_panics_witness :
    (@from_type Bool _ (fun _ => Nat) Unit true true 0
        (fun s p => .ok (p, s))).construct ⟨false, 5⟩ () = none ∧
      ∀ r : Except ConstructError (BoxedReflect Bool (fun _ => Nat) × Unit),
        (@from_type Bool _ (fun _ => Nat) Unit true true 0
          (fun s p => .ok (p, s))).construct ⟨false, 5⟩ () ≠ some r :=
  from_type_downcast_mismatch_panics Bool (fun _ => Nat) Unit true true 0
    (fun s p => .ok (p, s)) ⟨false, 5⟩ () (by decide)

/-- Claim C1, settled as a code bug: processing the enum
`enum E { V1, V2 }` emits a props enum with variants `V1` and `V2` and the
`Construct` impl, but no `Default` implementation for the props type at
all — so the props type has no generated default value, let alone one
resolving to the first declared variant. In general the enum branch never
emits a `Default` impl (the macro's own comment at
src/macros/src/lib.rs line 92 promises "Props will always default to the
first variant with all None", and the `first_variant_default_ident` it
computes for that purpose is dead code), while the struct branch always
does. -/
theorem derive_construct_enum_emits_no_default :
    (derive_construct (.dataEnum [("V1", .unit), ("V2", .unit)])
        = some { props_decl := PropsTypeDecl.enumDecl
                   [{ name := "V1", fields := [] }, { name := "V2", fields := [] }]
                 has_default_impl := false
                 default_body := []
                 from_props := [[], []] }) ∧
      (∀ variants : List (String × SynFields),
        (derive_construct (.dataEnum variants)).map DerivedOutput.has_default_impl
          = some false) ∧
      (∀ fields : SynFields,
        (derive_construct (.dataStruct fields)).map DerivedOutput.has_default_impl
          = some true) := by
  refine ⟨rfl, fun variants => rfl, fun fields => rfl⟩

/-- Counterexample to claim C3 as stated: a module-restricted
(`pub(crate)`) source field yields a props field with the inherited
(no-qualifier) visibility, which is not the same qualifier — `is_pub` only
tests for `Visibility::Public`, collapsing every other qualifier. -/
theorem props_field_vis_not_preserved :
    ((struct_impl
        (.named [{ ident := some "x", ty := "u32",
                   vis := Visibility.restricted "crate", isProp := false }])
        false).props_fields.map PropsField.vis) = [Visibility.inherited] ∧
      Visibility.inherited ≠ Visibility.restricted "crate" := by
  exact ⟨rfl, by decide⟩

/-- Claim C3 amended: for every field of every struct or enum variant
processed by the generator, the props field is `pub` exactly when the
source field is `pub`; every non-public source field — inherited or
module-restricted alike — yields a props field with the inherited (private)
visibility. So public stays public and non-public stays non-public, but a
restricted qualifier such as `pub(crate)` is collapsed to private rather
than carried over exactly. -/
theorem struct_impl_props_field_vis (fields : SynFields) (is_enum : Bool) (i : Nat) :
    ((struct_impl fields is_enum).props_fields[i]?).map PropsField.vis
      = (fields.list[i]?).map (fun f =>
          if f.vis = Visibility.publicVis then Visibility.publicVis
          else Visibility.inherited) := by
  simp only [struct_impl, List.getElem?_map]
  cases h : fields.list[i]? with
  | none => rfl
  | some f =>
    simp only [Option.map_some']
    congr 1
    cases hv : f.vis <;> simp [hv]

/-- Claim C10: applying the derived descriptor's `construct` to the boxed
value produced by the same descriptor's `default_props` never reaches the
downcast fault — the result is a `some`, namely exactly the boxed result of
the concrete `construct` applied to the concrete default props and the same
context. -/
theorem from_type_default_props_roundtrip (Tag : Type) [DecidableEq Tag]
    (Val : Tag → Type) (σ : Type) (propsTag instTag : Tag)
    (dflt : Val propsTag)
    (construct : σ → Val propsTag → Except ConstructError (Val instTag × σ))
    (ctx : σ) :
    (from_type propsTag instTag dflt construct).construct
        (from_type propsTag instTag dflt construct).default_props ctx
      = some ((construct ctx dflt).map (fun r => (⟨instTag, r.1⟩, r.2))) := by
  have hd : downcastBox propsTag
      (⟨propsTag, dflt⟩ : BoxedReflect Tag Val) = some dflt := by
    simp [downcastBox]
  simp [from_type, hd]

end BevyConstruct
